import Mathlib

/-!
Verification of the quantplay-mcp client library against its specification.

The development shallowly embeds the Python sources
(`quantplay_mcp/config.py`, `quantplay_mcp/models.py`,
`quantplay_mcp/client.py`, `quantplay_mcp/server.py`):

* JSON values are an inductive `Json`; Python dicts appearing as JSON
  objects or header maps are association lists in insertion order, with
  `dictSet` giving Python's set-item semantics (update in place, else
  append).
* Fallible Python code is embedded in `Except PyError`; every Python
  exception class that can reach a caller is a `PyError` constructor.
* The HTTP transport is a parameter: an operation takes the outcome of
  its single network call (either a transport-level exception or a
  completed response) and is quantified over all such outcomes.
* Numeric JSON payloads are modelled as integers; no floating-point
  arithmetic occurs anywhere in the embedded code paths.
-/

/-- JSON values as delivered by `response.json()` / `json.loads`. -/
inductive Json where
  | null : Json
  | bool : Bool → Json
  | num : Int → Json
  | str : String → Json
  | arr : List Json → Json
  | obj : List (String × Json) → Json
deriving Repr

/-- Python exceptions that can escape the embedded code. The first five
are the classified error taxonomy of `client.py`; the remaining
constructors are raw Python runtime errors. -/
inductive PyError where
  | authenticationError (message : String)
  | apiRequestError (status_code : Nat) (message : Json)
  | networkError (message : String)
  | timeoutError (message : String)
  | parseError (message : String)
  | keyError (key : String)
  | typeError (message : String)
  | nameError (name : String)
  | attributeError (name : String)
deriving Repr

/-- The five classified error kinds (subclasses of `QuantPlayAPIError`),
as opposed to raw Python exceptions such as `KeyError`. -/
def isQuantPlayAPIError : PyError → Bool
  | .authenticationError _ => true
  | .apiRequestError _ _ => true
  | .networkError _ => true
  | .timeoutError _ => true
  | .parseError _ => true
  | _ => false

/-- First-match lookup in an association list (Python dict access:
a dict's keys are unique, so first match is the unique match). -/
def lookupJ {κ α : Type} [DecidableEq κ] (kvs : List (κ × α)) (k : κ) : Option α :=
  match kvs with
  | [] => none
  | (k2, v) :: rest => if k2 = k then some v else lookupJ rest k

/-- Python `d.get(k, default)` on a JSON object. -/
def objGetD (kvs : List (String × Json)) (k : String) (d : Json) : Json :=
  (lookupJ kvs k).getD d

/-- Python `d[k] = v` on a dict: replace in place if the key exists,
otherwise append (insertion order preserved). -/
def dictSet (d : List (String × String)) (k v : String) : List (String × String) :=
  match d with
  | [] => [(k, v)]
  | (k2, v2) :: rest => if k2 = k then (k, v) :: rest else (k2, v2) :: dictSet rest k v

/-! ## config.py -/

def API_BASE_URL : String := "https://dms.quantplay.tech"

def API_VERSION : String := "v2"

def API_ENDPOINT : String := API_BASE_URL ++ "/" ++ API_VERSION

def DEFAULT_TIMEOUT : Nat := 30

def DEFAULT_HEADERS : List (String × String) :=
  [("Content-Type", "application/json"), ("Accept", "application/json")]

def ACCOUNTS_ENDPOINT : String := "/accounts"

/-- Source template `POSITIONS_ENDPOINT` applied via `str.format` to a
nickname segment. -/
def POSITIONS_ENDPOINT_fmt (nickname : String) : String :=
  "/accounts/" ++ nickname ++ "/positions"

/-- Source template `HOLDINGS_ENDPOINT` applied via `str.format` to a
nickname segment. -/
def HOLDINGS_ENDPOINT_fmt (nickname : String) : String :=
  "/accounts/" ++ nickname ++ "/holdings"

def ERROR_INVALID_API_KEY : String := "Invalid API key provided"

/-- Source template `ERROR_NETWORK_ERROR` applied via `str.format`. -/
def ERROR_NETWORK_ERROR_fmt (error : String) : String :=
  "Network error occurred while connecting to QuantPlay API: " ++ error

/-- Source template `ERROR_TIMEOUT` applied via `str.format`. -/
def ERROR_TIMEOUT_fmt (timeout : Nat) : String :=
  "Request to QuantPlay API timed out after " ++ toString timeout ++ " seconds"

/-- Source template `ERROR_PARSE_ERROR` applied via `str.format`. -/
def ERROR_PARSE_ERROR_fmt (error : String) : String :=
  "Failed to parse API response: " ++ error

/-! ## models.py -/

/-- The dataclass `Account` of `models.py`. The Python dataclass performs
no runtime type checking, so field values are arbitrary JSON values. -/
structure Account where
  broker : Json
  username : Json
  nickname : Json
  expiry : Json
deriving Repr

/-- Membership test `k in field_names` for `Account.__dataclass_fields__`. -/
def is_account_field (k : String) : Bool :=
  k = "broker" || k = "username" || k = "nickname" || k = "expiry"

/-- The classmethod `Account.from_dict`: copy the mapping, keep only keys
that are dataclass fields, then call the dataclass constructor with the
filtered entries as keyword arguments. Construction raises `TypeError`
when a required field is absent from the filtered mapping. -/
def Account.from_dict (data : List (String × Json)) : Except PyError Account :=
  let filtered_data := data.filter (fun kv => is_account_field kv.1)
  match lookupJ filtered_data "broker", lookupJ filtered_data "username",
        lookupJ filtered_data "nickname", lookupJ filtered_data "expiry" with
  | some b, some u, some n, some e => .ok ⟨b, u, n, e⟩
  | _, _, _, _ => .error (.typeError "missing required dataclass field")

/-- The method `BaseModel.to_dict` (`dataclasses.asdict`) specialised to
`Account`: the four fields in declaration order. -/
def Account.to_dict (a : Account) : List (String × Json) :=
  [("broker", a.broker), ("username", a.username),
   ("nickname", a.nickname), ("expiry", a.expiry)]

/-! ## client.py: construction and URL building -/

/-- Immutable state of a constructed `QuantPlayClient`. -/
structure ClientState where
  api_key : String
  base_url : String
  timeout : Nat
  headers : List (String × String)
deriving Repr

/-- The constructor `QuantPlayClient.__init__`: reject a falsy (empty)
api key, then store configuration and the header dict built from a copy
of `DEFAULT_HEADERS` with the authentication header added. No network
call occurs. -/
def clientInit (api_key : String) (base_url : String := API_ENDPOINT)
    (timeout : Nat := DEFAULT_TIMEOUT) : Except PyError ClientState :=
  if api_key = "" then
    .error (.authenticationError ERROR_INVALID_API_KEY)
  else
    .ok { api_key := api_key, base_url := base_url, timeout := timeout,
          headers := dictSet DEFAULT_HEADERS "x-api-key" api_key }

/-- Python `endpoint.startswith("/")`: the first character is a slash. -/
def startswith_slash (s : String) : Bool :=
  match s.data with
  | [] => false
  | c :: _ => c = '/'

/-- The method `QuantPlayClient._build_url`: prefix the endpoint with a
slash when it lacks one, then concatenate onto the base URL. -/
def build_url (base_url endpoint : String) : String :=
  if startswith_slash endpoint then base_url ++ endpoint
  else base_url ++ ("/" ++ endpoint)

/-! ## client.py: response handling -/

/-- A completed HTTP response as observed by the client: status code,
the result of parsing the body as JSON (`Except` carries the parser's
diagnostic on failure), and the raw body text. -/
structure HttpResponse where
  status : Nat
  jsonBody : Except String Json
  text : String

/-- Python `x or y` for strings: the fallback when the first is empty. -/
def pyStrOr (s fallback : String) : String :=
  if s = "" then fallback else s

/-- Python `value == True` on a JSON-decoded value: true for the boolean
`True` and for the number `1` (Python `1 == True` holds); false for
every other JSON value and for an absent key. -/
def pyEqTrue : Option Json → Bool
  | some (.bool b) => b
  | some (.num n) => n = 1
  | _ => false

/-- Python `value == "error"` on a JSON-decoded value (or absent key). -/
def pyEqStrError : Option Json → Bool
  | some (.str s) => s = "error"
  | _ => false

/-- Message extraction of the sync handler's `HTTPError` branch: re-parse
the body; from a JSON object take `message` (default "Unknown error");
a non-object parse keeps the default; a parse failure (bare `except`)
falls back to the raw body text, or the default when that is empty. -/
def httpErrorMessage (r : HttpResponse) : Json :=
  match r.jsonBody with
  | .ok (.obj kvs) => objGetD kvs "message" (.str "Unknown error")
  | .ok _ => .str "Unknown error"
  | .error _ => .str (pyStrOr r.text "Unknown error")

/-- The method `QuantPlayClient._handle_response`.
`response.raise_for_status()` raises `HTTPError` for status codes in
[400, 600), caught and rewrapped as `APIRequestError` with the message
extracted by `httpErrorMessage`. Otherwise the body is parsed as JSON
(`JSONDecodeError` is caught and rewrapped as `ParseError`); a parsed
dict whose `error` key equals `True` raises `APIRequestError` with the
embedded message; otherwise the handler returns `response_data["data"]`,
which raises `KeyError` on a dict without that key and `TypeError` on a
non-dict. -/
def handle_response (r : HttpResponse) : Except PyError Json :=
  if 400 ≤ r.status ∧ r.status < 600 then
    .error (.apiRequestError r.status (httpErrorMessage r))
  else
    match r.jsonBody with
    | .error diag => .error (.parseError (ERROR_PARSE_ERROR_fmt diag))
    | .ok response_data =>
      match response_data with
      | .obj kvs =>
        if pyEqTrue (lookupJ kvs "error") then
          .error (.apiRequestError r.status (objGetD kvs "message" (.str "Unknown error")))
        else
          match lookupJ kvs "data" with
          | some d => .ok d
          | none => .error (.keyError "data")
      | _ => .error (.typeError "value is not subscriptable by a string key")

/-- The method `QuantPlayClient._handle_async_response`, parameterised by
the `response_class.from_dict` argument. `response.ok` is false for
status codes ≥ 400: then the message is extracted as in the sync error
branch and `APIRequestError` raised. Otherwise the body is parsed as
JSON (`JSONDecodeError` rewrapped as `ParseError`); a parsed dict whose
`status` key equals `"error"` raises `APIRequestError` with the embedded
message; otherwise the handler returns `response_class.from_dict` of the
parsed body. -/
def handle_async_response {α : Type} (r : HttpResponse)
    (from_dict : Json → Except PyError α) : Except PyError α :=
  if 400 ≤ r.status then
    .error (.apiRequestError r.status (httpErrorMessage r))
  else
    match r.jsonBody with
    | .error diag => .error (.parseError (ERROR_PARSE_ERROR_fmt diag))
    | .ok response_data =>
      match response_data with
      | .obj kvs =>
        if pyEqStrError (lookupJ kvs "status") then
          .error (.apiRequestError r.status (objGetD kvs "message" (.str "Unknown error")))
        else from_dict response_data
      | _ => from_dict response_data

/-! ## client.py: operations -/

/-- Transport-level exceptions that a `requests.get` call can raise. -/
inductive TransportErr where
  | timeout (detail : String)
  | connectionError (detail : String)
  | otherRequestException (detail : String)
deriving Repr, DecidableEq

/-- The outcome of the single network call an operation performs, as a
function of the request's URL and headers. -/
def Transport : Type := String → List (String × String) → Except TransportErr HttpResponse

/-- The exception boundary shared by the three synchronous read
operations: `Timeout` becomes `TimeoutError`, `ConnectionError` becomes
`NetworkError`, any other `RequestException` becomes `NetworkError`, a
`QuantPlayAPIError` raised by `_handle_response` is re-raised unchanged,
and any other exception (such as `KeyError`) is caught by no clause and
propagates unchanged. -/
def sync_op_boundary (c : ClientState)
    (outcome : Except TransportErr HttpResponse) : Except PyError Json :=
  match outcome with
  | .error (.timeout _) => .error (.timeoutError (ERROR_TIMEOUT_fmt c.timeout))
  | .error (.connectionError d) => .error (.networkError (ERROR_NETWORK_ERROR_fmt d))
  | .error (.otherRequestException d) => .error (.networkError (ERROR_NETWORK_ERROR_fmt d))
  | .ok response => handle_response response

/-- The method `QuantPlayClient.get_accounts`: one GET to the accounts
URL with the client's headers and timeout, the response put through
`_handle_response`, whose return value is returned as is (no `Account`
construction happens on this path). -/
def get_accounts (c : ClientState) (http_get : Transport) : Except PyError Json :=
  let url := build_url c.base_url ACCOUNTS_ENDPOINT
  sync_op_boundary c (http_get url c.headers)

/-- The method `QuantPlayClient.get_holdings`. -/
def get_holdings (c : ClientState) (nickname : String) (http_get : Transport) :
    Except PyError Json :=
  let url := build_url c.base_url (HOLDINGS_ENDPOINT_fmt nickname)
  sync_op_boundary c (http_get url c.headers)

/-- The method `QuantPlayClient.get_positions`. -/
def get_positions (c : ClientState) (nickname : String) (http_get : Transport) :
    Except PyError Json :=
  let url := build_url c.base_url (POSITIONS_ENDPOINT_fmt nickname)
  sync_op_boundary c (http_get url c.headers)

/-- Result of one run of `async_get_accounts`: the value returned or the
exception raised, together with how many times `close()` was executed on
the internally created session and on a caller-supplied session. -/
structure AsyncRunOutcome where
  result : Except PyError Json
  internal_session_closes : Nat
  provided_session_closes : Nat
deriving Repr

/-- The method `QuantPlayClient.async_get_accounts`, parameterised by
whether the caller supplied a session and by the outcome of the network
call. `should_close_session` is set iff no session was supplied, and the
`finally` block closes the session exactly when that flag is set, on
every exit path. Inside the `try` block, the name `AccountsResponse` at
the `_handle_async_response` call site is undefined in `client.py`, so
the success path of the network call raises `NameError`; on a transport
error, evaluating the `except asyncio.TimeoutError` clause raises
`NameError` as well, because `asyncio` is never imported. Either way the
`NameError` escapes the except clauses (during its handling the clause
expression `asyncio.TimeoutError` itself raises `NameError: asyncio`),
and the `finally` block still runs. -/
def async_get_accounts (session_provided : Bool)
    (outcome : Except TransportErr HttpResponse) : AsyncRunOutcome :=
  let should_close_session : Bool := !session_provided
  let tryResult : Except PyError Json :=
    match outcome with
    | .error _ => .error (.nameError "asyncio")
    | .ok _ => .error (.nameError "asyncio")
  let closes : Nat := if should_close_session then 1 else 0
  { result := tryResult
  , internal_session_closes := if session_provided then 0 else closes
  , provided_session_closes := if session_provided then closes else 0 }

/-! ## server.py -/

/-- Attribute access `quantplay_client.place_order` on the module-level
`QuantPlayClient` instance: the class defines no such method, so the
lookup raises `AttributeError` and no HTTP request is issued. -/
def client_place_order_attr (_order : Json) : Except PyError Json :=
  .error (.attributeError "place_order")

/-- The tool function `place_order` of `server.py`: build the order dict
from the arguments (with the declared defaults), call
`quantplay_client.place_order(order)`, and fall off the end of the
function body without a `return` statement, so a non-raising call would
return `None`. -/
def server_place_order (nickname tradingsymbol : String) (quantity : Int)
    (transaction_type : String) (product : String := "CNC") (price : Int := 0)
    (order_type : String := "MARKET") (exchange : String := "NSE")
    (tag : String := "MCP") : Except PyError Json :=
  let order : Json := .obj
    [("nickname", .str nickname), ("tradingsymbol", .str tradingsymbol),
     ("product", .str product), ("price", .num price),
     ("order_type", .str order_type), ("exchange", .str exchange),
     ("transaction_type", .str transaction_type), ("quantity", .num quantity),
     ("tag", .str tag)]
  match client_place_order_attr order with
  | .error e => .error e
  | .ok _ => .ok .null

/-! ## Heap model for module-level dict aliasing (constructor effects)

The constructor mutates `self.headers` after `DEFAULT_HEADERS.copy()`.
To state that the module-level `DEFAULT_HEADERS` dict is never mutated,
dicts are modelled as heap cells addressed by allocation order, with the
module-level dict at address 0, and the constructor's dict operations
(`copy`, set-item) acting on the heap. -/

/-- A heap of string-to-string dicts: address ↦ contents, plus the next
fresh address. -/
structure DictHeap where
  cells : List (Nat × List (String × String))
  next : Nat
deriving Repr

/-- Contents of the dict at an address. -/
def heapRead (h : DictHeap) (a : Nat) : Option (List (String × String)) :=
  lookupJ h.cells a

/-- Allocate a fresh dict with the given contents. -/
def heapAlloc (h : DictHeap) (contents : List (String × String)) : Nat × DictHeap :=
  (h.next, { cells := h.cells ++ [(h.next, contents)], next := h.next + 1 })

/-- Python `d[k] = v` executed on the dict at address `a`. -/
def heapSetItem (h : DictHeap) (a : Nat) (k v : String) : DictHeap :=
  { cells := h.cells.map (fun c => if c.1 = a then (c.1, dictSet c.2 k v) else c),
    next := h.next }

/-- Address of the module-level `DEFAULT_HEADERS` dict. -/
def DEFAULT_HEADERS_addr : Nat := 0

/-- Heap at module import time: only `DEFAULT_HEADERS` is allocated. -/
def initialHeap : DictHeap :=
  { cells := [(DEFAULT_HEADERS_addr, DEFAULT_HEADERS)], next := 1 }

/-- The constructor `QuantPlayClient.__init__` with its dict effects made
explicit on the heap: `self.headers = DEFAULT_HEADERS.copy()` allocates
a fresh dict holding the current contents of the module-level dict, and
`self.headers["x-api-key"] = api_key` mutates only that fresh dict.
Returns the address of the client's header dict and the new heap. -/
def clientInitHeap (h : DictHeap) (api_key : String) :
    Except PyError (Nat × DictHeap) :=
  if api_key = "" then
    .error (.authenticationError ERROR_INVALID_API_KEY)
  else
    let defaults := (heapRead h DEFAULT_HEADERS_addr).getD []
    let alloc := heapAlloc h defaults
    let h2 := heapSetItem alloc.2 alloc.1 "x-api-key" api_key
    .ok (alloc.1, h2)

/-! ## Shared helper lemmas -/

/-- Looking up a dataclass field name is unaffected by the filter that
keeps exactly the dataclass field names. -/
theorem lookupJ_filter_is_account_field (data : List (String × Json)) (k : String)
    (hk : is_account_field k = true) :
    lookupJ (data.filter (fun kv => is_account_field kv.1)) k = lookupJ data k := by
  induction data with
  | nil => rfl
  | cons kv rest ih =>
    rcases kv with ⟨k2, v⟩
    rcases hfield : is_account_field k2 with _ | _
    · have hne : k2 ≠ k := by
        intro h
        rw [h, hk] at hfield
        exact Bool.noConfusion hfield
      simp [List.filter_cons, hfield, lookupJ, hne, ih]
    · by_cases h : k2 = k
      · subst h
        simp [List.filter_cons, hfield, lookupJ]
      · simp [List.filter_cons, hfield, lookupJ, h, ih]

/-- Adding the authentication header to the default header dict appends
it, since the default headers do not contain the key. -/
theorem dictSet_default_headers (k : String) :
    dictSet DEFAULT_HEADERS "x-api-key" k = DEFAULT_HEADERS ++ [("x-api-key", k)] := by
  simp [DEFAULT_HEADERS, dictSet]

/-! ## Claim theorems -/

/-- C5: client construction raises `AuthenticationError` exactly when the
api key is the empty string; for every non-empty key `k` it succeeds with
no network activity (the constructor performs no transport call) and the
stored header set is the default headers plus the authentication header
with value `k`. -/
theorem C5_client_init (k : String) :
    (k = "" → clientInit k = .error (.authenticationError ERROR_INVALID_API_KEY)) ∧
    (k ≠ "" →
      clientInit k = .ok {
        api_key := k, base_url := API_ENDPOINT,
        timeout := DEFAULT_TIMEOUT,
        headers := DEFAULT_HEADERS ++ [("x-api-key", k)] }) := by
  constructor
  · intro h
    simp [clientInit, h]
  · intro h
    simp [clientInit, h, dictSet_default_headers]

/-- Witness for C5 at the concrete keys `""` and `"secret"`. -/
theorem C5_client_init_witness :
    clientInit "" = .error (.authenticationError ERROR_INVALID_API_KEY) ∧
    clientInit "secret" = .ok {
      api_key := "secret", base_url := API_ENDPOINT,
      timeout := DEFAULT_TIMEOUT,
      headers := DEFAULT_HEADERS ++ [("x-api-key", "secret")] } :=
  ⟨(C5_client_init "").1 rfl, (C5_client_init "secret").2 (by decide)⟩

/-- C6: for every mapping containing the four `Account` fields plus
arbitrary extra keys, `Account.from_dict` followed by `to_dict` yields
exactly the four known fields with their original values; extra keys are
dropped and the round trip raises nothing. -/
theorem C6_account_round_trip (data : List (String × Json)) (b u n e : Json)
    (hb : lookupJ data "broker" = some b) (hu : lookupJ data "username" = some u)
    (hn : lookupJ data "nickname" = some n) (he : lookupJ data "expiry" = some e) :
    (Account.from_dict data).map Account.to_dict =
      .ok [("broker", b), ("username", u), ("nickname", n), ("expiry", e)] := by
  simp only [Account.from_dict]
  rw [lookupJ_filter_is_account_field data "broker" (by decide),
      lookupJ_filter_is_account_field data "username" (by decide),
      lookupJ_filter_is_account_field data "nickname" (by decide),
      lookupJ_filter_is_account_field data "expiry" (by decide),
      hb, hu, hn, he]
  rfl

/-- Witness for C6 on a concrete mapping with two extra keys. -/
theorem C6_account_round_trip_witness :
    (Account.from_dict
      [("id", .num 7), ("broker", .str "zerodha"), ("username", .str "u1"),
       ("nickname", .str "n1"), ("expiry", .str "2099-01-01"),
       ("extra", .bool true)]).map Account.to_dict =
    .ok [("broker", .str "zerodha"), ("username", .str "u1"),
         ("nickname", .str "n1"), ("expiry", .str "2099-01-01")] :=
  C6_account_round_trip _ _ _ _ _ rfl rfl rfl rfl

/-- C7: for every non-empty base, the URL builder returns the base
concatenated with the endpoint unchanged when the endpoint already
starts with a separator, and returns the identical result for the same
endpoint without its leading separator; it is total (never fails). -/
theorem C7_build_url_normalizes (base p : String) (_hbase : base ≠ "")
    (hp : startswith_slash p = false) :
    build_url base ("/" ++ p) = base ++ "/" ++ p ∧
    build_url base p = base ++ "/" ++ p := by
  have hdata : ("/" ++ p).data = '/' :: p.data := by
    rw [String.data_append]
    rfl
  have h1 : startswith_slash ("/" ++ p) = true := by
    simp [startswith_slash, hdata]
  constructor
  · rw [build_url, if_pos h1]
    have : base ++ ("/" ++ p) = base ++ "/" ++ p := by
      apply String.ext
      simp [String.data_append]
    exact this
  · rw [build_url, if_neg (by simp [hp])]
    have : base ++ ("/" ++ p) = base ++ "/" ++ p := by
      apply String.ext
      simp [String.data_append]
    exact this

/-- Witness for C7 at base `"https://h/v2"` and endpoint `"accounts"`. -/
theorem C7_build_url_normalizes_witness :
    build_url "https://h/v2" ("/" ++ "accounts") = "https://h/v2" ++ "/" ++ "accounts" ∧
    build_url "https://h/v2" "accounts" = "https://h/v2" ++ "/" ++ "accounts" :=
  C7_build_url_normalizes "https://h/v2" "accounts" (by decide) (by decide)

/-- A concrete constructed client used to evaluate operations. -/
def testClient : ClientState :=
  { api_key := "k", base_url := API_ENDPOINT, timeout := DEFAULT_TIMEOUT,
    headers := dictSet DEFAULT_HEADERS "x-api-key" "k" }

/-- The HTTP outcome of C1: status 200 with the documented accounts
body. -/
def c1Response : HttpResponse :=
  { status := 200
  , jsonBody := .ok (.obj [("data", .arr [.obj
      [("broker", .str "zerodha"), ("username", .str "u1"),
       ("nickname", .str "n1"), ("expiry", .str "2099-01-01")]])])
  , text := "" }

/-- C1, evaluation at the failing input: on a 200 response with body
`data: [one account object]`, the synchronous `get_accounts` returns the
raw JSON array holding the raw mapping unchanged — `_handle_response`
returns `response_data["data"]` and no `Account` value is ever
constructed on this path, contradicting the claim (and the method's own
`List[Account]` annotation and docstring). -/
theorem C1_code_eval :
    get_accounts testClient (fun _ _ => .ok c1Response) =
      .ok (.arr [.obj
        [("broker", .str "zerodha"), ("username", .str "u1"),
         ("nickname", .str "n1"), ("expiry", .str "2099-01-01")]]) := rfl

/-- C2, evaluation at the failing input: the tool-layer `place_order`
raises `AttributeError` because `QuantPlayClient` defines no
`place_order` method, so no POST is issued and no acknowledgment record
is returned (the function body would also return `None`, lacking a
`return` statement). -/
theorem C2_code_eval :
    server_place_order "acc1" "SBIN" 1 "BUY" =
      .error (.attributeError "place_order") := rfl

/-- C3, counterexample: the synchronous handler, given a success-status
outcome whose JSON-object body carries the failure marker
`status = "error"` with an embedded message, does not raise
`APIRequestError` — it returns the `data` field, because it only checks
the `error` key. -/
theorem C3_counterexample :
    handle_response
      { status := 200
      , jsonBody := .ok (.obj [("status", .str "error"),
          ("message", .str "account fetch failed"), ("data", .null)])
      , text := "" } = .ok .null := rfl

/-- C3, amended: each handler raises `APIRequestError` with the object's
embedded message for its own failure marker only — the synchronous one
when the `error` field compares equal to `True`, the asynchronous one
when the `status` field equals `"error"` — and the two markers are not
interchangeable: on a success-status object carrying only the
`status = "error"` marker, the synchronous handler returns the `data`
field instead of raising. -/
theorem C3_amended_markers (status : Nat) (kvs : List (String × Json))
    (txt : String) (α : Type) (from_dict : Json → Except PyError α)
    (hs : status < 400) :
    (pyEqTrue (lookupJ kvs "error") = true →
      handle_response { status := status, jsonBody := .ok (.obj kvs), text := txt } =
        .error (.apiRequestError status (objGetD kvs "message" (.str "Unknown error")))) ∧
    (pyEqStrError (lookupJ kvs "status") = true →
      handle_async_response { status := status, jsonBody := .ok (.obj kvs), text := txt }
          from_dict =
        .error (.apiRequestError status (objGetD kvs "message" (.str "Unknown error")))) ∧
    (pyEqTrue (lookupJ kvs "error") = false →
      ∀ d, lookupJ kvs "data" = some d →
        handle_response { status := status, jsonBody := .ok (.obj kvs), text := txt } =
          .ok d) := by
  have h1 : ¬(400 ≤ status ∧ status < 600) := fun h => absurd h.1 (by omega)
  have h2 : ¬(400 ≤ status) := by omega
  refine ⟨?_, ?_, ?_⟩
  · intro herr
    simp [handle_response, h1, herr]
  · intro hst
    simp [handle_async_response, h2, hst]
  · intro herr d hd
    simp [handle_response, h1, herr, hd]

/-- Witness for C3's amended statement on a concrete object carrying
both marker forms. -/
theorem C3_amended_markers_witness :
    handle_response
      { status := 200
      , jsonBody := .ok (.obj [("error", .bool true), ("status", .str "error"),
          ("message", .str "m"), ("data", .null)])
      , text := "" } = .error (.apiRequestError 200 (.str "m")) ∧
    handle_async_response
      { status := 200
      , jsonBody := .ok (.obj [("error", .bool true), ("status", .str "error"),
          ("message", .str "m"), ("data", .null)])
      , text := "" } (fun j => .ok j) = .error (.apiRequestError 200 (.str "m")) :=
  ⟨(C3_amended_markers 200 _ "" Json (fun j => .ok j) (by decide)).1 rfl,
   (C3_amended_markers 200 _ "" Json (fun j => .ok j) (by decide)).2.1 rfl⟩

/-- C4: in the asynchronous `get_accounts`, for every outcome of the
network call (and therefore on every exit path of the operation), an
internally created session is closed exactly once and a caller-supplied
session is never closed. -/
theorem C4_session_lifecycle (outcome : Except TransportErr HttpResponse) :
    (async_get_accounts false outcome).internal_session_closes = 1 ∧
    (async_get_accounts false outcome).provided_session_closes = 0 ∧
    (async_get_accounts true outcome).internal_session_closes = 0 ∧
    (async_get_accounts true outcome).provided_session_closes = 0 :=
  ⟨rfl, rfl, rfl, rfl⟩

/-- The HTTP outcome of C8: a 200 status whose body is not parseable as
JSON (the parser's diagnostic is carried on the error side). -/
def c8Response : HttpResponse :=
  { status := 200
  , jsonBody := .error "Expecting value: line 1 column 1 (char 0)"
  , text := "<html>gateway error</html>" }

/-- C8, evaluation at the failing input: on a 200 response with a
non-JSON body, the synchronous handler and all three synchronous read
operations raise `ParseError` wrapping the parser's diagnostic, exactly
as claimed — but the asynchronous accounts operation instead fails with
`NameError` (the undefined name `AccountsResponse` at its handler call
site, compounded by the un-imported `asyncio` in its except clause), so
the claim's "every operation" fails on the async path. -/
theorem C8_parse_error_eval :
    handle_response c8Response =
      .error (.parseError (ERROR_PARSE_ERROR_fmt "Expecting value: line 1 column 1 (char 0)")) ∧
    get_accounts testClient (fun _ _ => .ok c8Response) =
      .error (.parseError (ERROR_PARSE_ERROR_fmt "Expecting value: line 1 column 1 (char 0)")) ∧
    get_positions testClient "n1" (fun _ _ => .ok c8Response) =
      .error (.parseError (ERROR_PARSE_ERROR_fmt "Expecting value: line 1 column 1 (char 0)")) ∧
    get_holdings testClient "n1" (fun _ _ => .ok c8Response) =
      .error (.parseError (ERROR_PARSE_ERROR_fmt "Expecting value: line 1 column 1 (char 0)")) ∧
    (async_get_accounts false (.ok c8Response)).result = .error (.nameError "asyncio") :=
  ⟨rfl, rfl, rfl, rfl, rfl⟩

/-- C9: on a success-status outcome whose body parses to a JSON object
with no failure marker and no `data` key, the synchronous handler raises
`KeyError`, the operation returns it unchanged (its boundary catches
only transport exceptions and `QuantPlayAPIError`), and `KeyError` is
not one of the five classified error kinds. -/
theorem C9_keyerror_propagates (c : ClientState) (status : Nat)
    (kvs : List (String × Json)) (txt : String)
    (hlo : 200 ≤ status) (hhi : status < 300)
    (hnoerr : pyEqTrue (lookupJ kvs "error") = false)
    (hnodata : lookupJ kvs "data" = none) :
    handle_response { status := status, jsonBody := .ok (.obj kvs), text := txt } =
      .error (.keyError "data") ∧
    get_accounts c (fun _ _ => .ok
        { status := status, jsonBody := .ok (.obj kvs), text := txt }) =
      .error (.keyError "data") ∧
    isQuantPlayAPIError (.keyError "data") = false := by
  have h1 : ¬(400 ≤ status ∧ status < 600) := fun h => absurd h.1 (by omega)
  refine ⟨?_, ?_, rfl⟩
  · simp [handle_response, h1, hnoerr, hnodata]
  · simp [get_accounts, sync_op_boundary, handle_response, h1, hnoerr, hnodata]

/-- Witness for C9 on a 200 response whose object body has only a
`message` key. -/
theorem C9_keyerror_propagates_witness :
    handle_response
      { status := 200, jsonBody := .ok (.obj [("message", .str "fine")]), text := "" } =
      .error (.keyError "data") ∧
    get_accounts testClient (fun _ _ => .ok
        { status := 200, jsonBody := .ok (.obj [("message", .str "fine")]), text := "" }) =
      .error (.keyError "data") ∧
    isQuantPlayAPIError (.keyError "data") = false :=
  C9_keyerror_propagates testClient 200 [("message", .str "fine")] ""
    (by decide) (by decide) rfl rfl

/-- C10: constructing two clients with distinct keys mutates neither the
module-level default header dict (each constructor copies it before
adding the authentication header) nor the other client's header dict:
after both constructions the cell of `DEFAULT_HEADERS` still holds the
default headers, and each client's cell holds the defaults plus only its
own key. -/
theorem C10_defaults_not_mutated (k1 k2 : String) (h1 : k1 ≠ "") (h2 : k2 ≠ "") :
    ∃ s1 s2 : DictHeap,
      clientInitHeap initialHeap k1 = .ok (1, s1) ∧
      clientInitHeap s1 k2 = .ok (2, s2) ∧
      heapRead s2 DEFAULT_HEADERS_addr = some DEFAULT_HEADERS ∧
      heapRead s2 1 = some (DEFAULT_HEADERS ++ [("x-api-key", k1)]) ∧
      heapRead s2 2 = some (DEFAULT_HEADERS ++ [("x-api-key", k2)]) := by
  refine ⟨{ cells := [(0, DEFAULT_HEADERS),
              (1, DEFAULT_HEADERS ++ [("x-api-key", k1)])], next := 2 },
          { cells := [(0, DEFAULT_HEADERS),
              (1, DEFAULT_HEADERS ++ [("x-api-key", k1)]),
              (2, DEFAULT_HEADERS ++ [("x-api-key", k2)])], next := 3 },
          ?_, ?_, ?_, ?_, ?_⟩
  · simp [clientInitHeap, h1, initialHeap, heapRead, heapAlloc, heapSetItem,
      lookupJ, DEFAULT_HEADERS_addr, dictSet_default_headers]
  · simp [clientInitHeap, h2, heapRead, heapAlloc, heapSetItem,
      lookupJ, DEFAULT_HEADERS_addr, dictSet_default_headers]
  · simp [heapRead, lookupJ, DEFAULT_HEADERS_addr]
  · simp [heapRead, lookupJ]
  · simp [heapRead, lookupJ]

/-- Witness for C10 at the concrete keys `"alpha"` and `"beta"`. -/
theorem C10_defaults_not_mutated_witness :
    ∃ s1 s2 : DictHeap,
      clientInitHeap initialHeap "alpha" = .ok (1, s1) ∧
      clientInitHeap s1 "beta" = .ok (2, s2) ∧
      heapRead s2 DEFAULT_HEADERS_addr = some DEFAULT_HEADERS ∧
      heapRead s2 1 = some (DEFAULT_HEADERS ++ [("x-api-key", "alpha")]) ∧
      heapRead s2 2 = some (DEFAULT_HEADERS ++ [("x-api-key", "beta")]) :=
  C10_defaults_not_mutated "alpha" "beta" (by decide) (by decide)
